import Mathlib

/-!
Shallow embedding of the SAMv3 bridge client (`sam3.go`) and verification of
the specification's claims about it.

Conventions of the embedding:
* Go strings are modelled as `List Char`.  All string constants appearing in
  the program are ASCII, so the character-level slicing performed below
  (`List.drop`, `List.dropLast`) coincides with Go's byte-level slicing on
  every input the claims are about.
* Fallible operations return `Except (List Char) α`, the error being the Go
  error message.
* The network is modelled as an environment supplying the outcome of each
  `Write`/`Read`/`Dial` the code performs; connection lifecycle is tracked
  explicitly by a `ConnState` (was the connection opened, was `Close` called).
-/

namespace Sam3

/-- Character class used by Go's `bufio.ScanWords` (`unicode.IsSpace`):
the Unicode White_Space property. -/
def isGoSpace (c : Char) : Bool :=
  decide ((9 ≤ c.toNat ∧ c.toNat ≤ 13) ∨ c.toNat = 32 ∨ c.toNat = 133 ∨
    c.toNat = 160 ∨ c.toNat = 5760 ∨ (8192 ≤ c.toNat ∧ c.toNat ≤ 8202) ∨
    c.toNat = 8232 ∨ c.toNat = 8233 ∨ c.toNat = 8239 ∨ c.toNat = 8287 ∨
    c.toNat = 12288)

/-- Streaming word scanner: accumulates the current word (reversed) in `acc`,
emitting it when whitespace or the end of input is reached.  This is the
token stream produced by `bufio.NewScanner` with `bufio.ScanWords` split
function (maximal runs of non-space characters, in order). -/
def splitWordsAux : List Char → List Char → List (List Char)
  | [], acc => if acc.isEmpty then [] else [acc.reverse]
  | c :: cs, acc =>
    if isGoSpace c then
      if acc.isEmpty then splitWordsAux cs [] else acc.reverse :: splitWordsAux cs []
    else splitWordsAux cs (c :: acc)

/-- Whitespace tokenization of a reply buffer, as done by `bufio.ScanWords`. -/
def splitWords (l : List Char) : List (List Char) :=
  splitWordsAux l []

/-- Number of bytes of the UTF-8 encoding of a character list; Go's `len` on
the corresponding Go string / byte count returned by `conn.Read`. -/
def utf8Len (l : List Char) : Nat :=
  (l.map Char.utf8Size).sum

/-! ## Handshake (`NewSAM`, sam3.go lines 27-47) -/

/-- Exact success reply checked at line 40. -/
def hello_OK : List Char := "HELLO REPLY RESULT=OK VERSION=3.0\n".data

/-- Exact no-compatible-version reply checked at line 42. -/
def hello_NOVERSION : List Char := "HELLO REPLY RESULT=NOVERSION\n".data

/-- Error message returned for the NOVERSION reply (line 43). -/
def noVersionMsg : List Char := "That SAM bridge does not support SAMv3.".data

/-- Three-way classification of a handshake reply. -/
inductive HelloResult where
  | success : HelloResult
  | unsupportedVersion : HelloResult
  | protocolError : List Char → HelloResult
deriving DecidableEq, Repr

/-- Classification of the handshake reply performed at sam3.go lines 40-46:
exact match against the success string, else exact match against the
NOVERSION string, else a protocol error carrying the raw reply. -/
def classifyHello (reply : List Char) : HelloResult :=
  if reply = hello_OK then .success
  else if reply = hello_NOVERSION then .unsupportedVersion
  else .protocolError reply

/-- State of one TCP connection: whether `net.Dial` succeeded for it and
whether `Close` was called on it before the operation returned. -/
structure ConnState where
  opened : Bool
  closed : Bool
deriving DecidableEq, Repr

/-- Environment for one run of `NewSAM`: outcome of the dial, of writing the
HELLO line, and of the single bounded read. -/
structure NewSAMEnv where
  dial : Except (List Char) Unit
  helloWrite : Except (List Char) Unit
  helloRead : Except (List Char) (List Char)

/-- Model of `NewSAM` (sam3.go lines 27-47).  Returns the operation's result
together with the state of the connection it dialed.  Note that none of the
failure paths of `NewSAM` call `conn.Close()`. -/
def newSAMModel (env : NewSAMEnv) : Except (List Char) Unit × ConnState :=
  match env.dial with
  | .error e => (.error e, ⟨false, false⟩)
  | .ok _ =>
    match env.helloWrite with
    | .error e => (.error e, ⟨true, false⟩)
    | .ok _ =>
      match env.helloRead with
      | .error e => (.error e, ⟨true, false⟩)
      | .ok reply =>
        match classifyHello reply with
        | .success => (.ok (), ⟨true, false⟩)
        | .unsupportedVersion => (.error noVersionMsg, ⟨true, false⟩)
        | .protocolError raw => (.error raw, ⟨true, false⟩)

/-! ## Key generation (`NewKeys`, sam3.go lines 52-80)

The transport error paths (lines 53-60) surface the write/read error
directly; the claims concern the token walk over the reply, modelled here. -/

/-- Token walk of `NewKeys` (sam3.go lines 64-79): `pub` and `priv` start as
the empty string, `DEST`/`REPLY` tokens are skipped, tokens starting with
`PUB=` or `PRIV=` set the respective field (marker stripped), anything else
aborts. -/
def parseKeysScan (pub priv : List Char) :
    List (List Char) → Except (List Char) (List Char × List Char)
  | [] => .ok (pub, priv)
  | t :: ts =>
    if t = "DEST".data then parseKeysScan pub priv ts
    else if t = "REPLY".data then parseKeysScan pub priv ts
    else if "PUB=".data.isPrefixOf t then parseKeysScan (t.drop 4) priv ts
    else if "PRIV=".data.isPrefixOf t then parseKeysScan pub (t.drop 5) ts
    else .error "Failed to parse keys.".data

/-- Model of the parsing part of `NewKeys`: tokenize the reply read from the
bridge and walk the tokens.  On success the pair is the (public address,
private key) of the returned `I2PKeys`. -/
def newKeysModel (reply : List Char) : Except (List Char) (List Char × List Char) :=
  parseKeysScan [] [] (splitWords reply)

/-! ## Name resolution (`Lookup`, sam3.go lines 84-119)

The transport error paths (lines 85-92) surface the write/read error
directly; the claims concern the length/header check and the token walk. -/

/-- Header required of every lookup reply (13 ASCII characters, line 93). -/
def namingHeader : List Char := "NAMING REPLY ".data

/-- Token walk of `Lookup` (sam3.go lines 99-118), carrying the accumulated
error string `errStr`. -/
def lookupScan (name errStr : List Char) :
    List (List Char) → Except (List Char) (List Char)
  | [] => .error errStr
  | t :: ts =>
    if t = "RESULT=OK".data then lookupScan name errStr ts
    else if t = "RESULT=INVALID_KEY".data then
      lookupScan name (errStr ++ "Invalid key.".data) ts
    else if t = "RESULT=KEY_NOT_FOUND".data then
      lookupScan name (errStr ++ "Unable to resolve ".data ++ name) ts
    else if t = "NAME=".data ++ name then lookupScan name errStr ts
    else if "VALUE=".data.isPrefixOf t then .ok (t.drop 6)
    else if "MESSAGE=".data.isPrefixOf t then
      lookupScan name (errStr ++ [' '] ++ t.drop 8) ts
    else .error "Failed to parse lookup reply.".data

/-- Model of the reply handling of `Lookup` (sam3.go lines 93-118): reject a
reply of at most 13 bytes or one not starting with the header, then tokenize
everything after the 13-byte header and walk the tokens. -/
def lookupModel (name reply : List Char) : Except (List Char) (List Char) :=
  if utf8Len reply ≤ 13 then .error "Failed to parse.".data
  else if ¬ (namingHeader.isPrefixOf reply) then .error "Failed to parse.".data
  else lookupScan name [] (splitWords (reply.drop 13))

/-! ## Session negotiation (`newGenericSession`, sam3.go lines 127-179) -/

/-- Reply literal constants of sam3.go lines 18-24. -/
def session_OK : List Char := "SESSION STATUS RESULT=OK DESTINATION=".data

/-- Exact duplicate-id reply (line 20). -/
def session_DUPLICATE_ID : List Char := "SESSION STATUS RESULT=DUPLICATED_ID\n".data

/-- Exact duplicate-destination reply (line 21). -/
def session_DUPLICATE_DEST : List Char := "SESSION STATUS RESULT=DUPLICATED_DEST\n".data

/-- Exact invalid-key reply (line 22). -/
def session_INVALID_KEY : List Char := "SESSION STATUS RESULT=INVALID_KEY\n".data

/-- Error-message reply marker (line 23). -/
def session_I2P_ERROR : List Char := "SESSION STATUS RESULT=I2P_ERROR MESSAGE=".data

/-- Error message of the destination-mismatch guard (line 160). -/
def integrityMsg : List Char :=
  "SAMv3 created a tunnel with keys other than the ones we asked it for".data

/-- Fixed error message replacing the underlying `NewSAM` error (line 130). -/
def unableMsg : List Char := "Unable to create new streaming tunnel.".data

/-- Outcome of one `conn.Write(scmsg[m:])` call: number of bytes written, or
an error. -/
inductive WriteOutcome where
  | ok : Nat → WriteOutcome
  | err : List Char → WriteOutcome

/-- Result of the command write loop of sam3.go lines 139-150. -/
inductive WriteLoopResult where
  | done : WriteLoopResult
  | bound : WriteLoopResult
  | fail : List Char → WriteLoopResult
deriving DecidableEq, Repr

/-- The write loop of sam3.go lines 139-150 over a message of length `L`:
`m` is the count of bytes already written, `i` the attempt counter.  Each
iteration first checks the loop condition `m != len(scmsg)`, then the bound
`i == 15`, then performs write attempt `i` (whose outcome `out i` supplies),
resuming at offset `m` — the first unwritten byte.  Besides the result it
returns the list of offsets at which the write attempts were issued.  The
`fuel` argument only establishes termination: the loop aborts once `i`
reaches 15, so from the entry point (`fuel = 16`, `i = 0`, where
`fuel = 16 - i` is invariant) the `fuel = 0` branch is unreachable. -/
def writeLoopAux (out : Nat → WriteOutcome) (L : Nat) :
    Nat → Nat → Nat → WriteLoopResult × List Nat
  | 0, _, _ => (.bound, [])
  | fuel + 1, m, i =>
    if m = L then (.done, [])
    else if i = 15 then (.bound, [])
    else
      match out i with
      | .err e => (.fail e, [m])
      | .ok n =>
        let r := writeLoopAux out L fuel (m + n) (i + 1)
        (r.1, m :: r.2)

/-- Entry point of the write loop: `m = 0`, `i = 0`. -/
def writeLoop (out : Nat → WriteOutcome) (L : Nat) : WriteLoopResult × List Nat :=
  writeLoopAux out L 16 0 0

/-- Concatenation of the option list built by the loop of sam3.go lines
132-135: `optStr += "OPTION=" + opt + " "`. -/
def optStrOf (options : List (List Char)) : List Char :=
  options.foldl (fun acc o => acc ++ ("OPTION=".data ++ o ++ [' '])) []

/-- Model of Go's `strings.Join(extras, " ")`. -/
def joinSpace : List (List Char) → List Char
  | [] => []
  | [x] => x
  | x :: y :: xs => x ++ ' ' :: joinSpace (y :: xs)

/-- The session-create command of sam3.go line 138.  `keysStr` stands for
`keys.String()`, the serialization of the requested destination keys. -/
def sessionCmd (style id keysStr : List Char) (options extras : List (List Char)) :
    List Char :=
  "SESSION CREATE STYLE=".data ++ style ++ " ID=".data ++ id ++
    " DESTINATION=".data ++ keysStr ++ [' '] ++ optStrOf options ++
    joinSpace extras ++ ['\n']

/-- Result of session negotiation: the live connection, or an error message. -/
inductive SessionResult where
  | conn : SessionResult
  | err : List Char → SessionResult
deriving DecidableEq, Repr

/-- Classification of the session-create reply, sam3.go lines 157-178.  The
second component records whether this branch calls `conn.Close()`: the two
branches under the `session_OK` prefix — success and the destination-mismatch
integrity error — do not close, every other branch does. -/
def classifySession (keysStr text : List Char) : SessionResult × Bool :=
  if session_OK.isPrefixOf text then
    if keysStr = (text.drop session_OK.length).dropLast then (.conn, false)
    else (.err integrityMsg, false)
  else if text = session_DUPLICATE_ID then (.err "Duplicate tunnel name".data, true)
  else if text = session_DUPLICATE_DEST then (.err "Duplicate destination".data, true)
  else if text = session_INVALID_KEY then (.err "Invalid key".data, true)
  else if session_I2P_ERROR.isPrefixOf text then
    (.err ("I2P error ".data ++ text.drop session_I2P_ERROR.length), true)
  else (.err ("Unable to parse SAMv3 reply: ".data ++ text), true)

/-- Environment for one run of `newGenericSession`: the environment of the
inner `NewSAM` call on the same address, the outcomes of the command write
attempts, and the outcome of the single bounded reply read. -/
structure SessionEnv where
  newSAMEnv : NewSAMEnv
  writeOutcomes : Nat → WriteOutcome
  readResult : Except (List Char) (List Char)

/-- Model of `newGenericSession` (sam3.go lines 127-179).  Returns the
result together with the state of the connection opened by the inner
`NewSAM` call (the connection that would be handed to the caller). -/
def newGenericSessionModel (style id keysStr : List Char)
    (options extras : List (List Char)) (env : SessionEnv) :
    SessionResult × ConnState :=
  match newSAMModel env.newSAMEnv with
  | (.error _, cs) => (.err unableMsg, cs)
  | (.ok _, _) =>
    let scmsg := sessionCmd style id keysStr options extras
    match (writeLoop env.writeOutcomes scmsg.length).1 with
    | .bound => (.err "writing to SAM failed".data, ⟨true, true⟩)
    | .fail e => (.err e, ⟨true, true⟩)
    | .done =>
      match env.readResult with
      | .error e => (.err e, ⟨true, true⟩)
      | .ok text =>
        let rc := classifySession keysStr text
        (rc.1, ⟨true, rc.2⟩)

/-- Bytes reported written by one write outcome (`n` for `ok n`, none for an
error, after which no further write happens). -/
def okBytes : WriteOutcome → Nat
  | .ok n => n
  | .err _ => 0

/-- Total bytes reported written by outcomes `i, i+1, ..., i+k-1`. -/
def sumBytes (out : Nat → WriteOutcome) (i : Nat) : Nat → Nat
  | 0 => 0
  | k + 1 => okBytes (out i) + sumBytes out (i + 1) k

/-- Tokens of a lookup reply that the scan of sam3.go lines 100-117 consumes
without returning: the three recognized RESULT values, the echo of the looked
up name, and message tokens (the latter two may also add to the accumulated
error text). -/
def lookupBenign (name t : List Char) : Prop :=
  t = "RESULT=OK".data ∨ t = "RESULT=INVALID_KEY".data ∨
    t = "RESULT=KEY_NOT_FOUND".data ∨ t = "NAME=".data ++ name ∨
    "MESSAGE=".data.isPrefixOf t = true

/-- Predicate: no character of `w` is whitespace. -/
def allNonSpace (w : List Char) : Prop :=
  ∀ c ∈ w, isGoSpace c = false

instance allNonSpaceDecidable (w : List Char) : Decidable (allNonSpace w) :=
  inferInstanceAs (Decidable (∀ c ∈ w, isGoSpace c = false))

/-! ## Helper lemmas about the tokenizer -/

theorem splitWords_space {s : Char} (hs : isGoSpace s = true) (rest : List Char) :
    splitWords (s :: rest) = splitWords rest := by
  simp [splitWords, splitWordsAux, hs]

theorem splitWordsAux_word {s : Char} (hs : isGoSpace s = true) :
    ∀ (w acc rest : List Char), acc ≠ [] → allNonSpace w →
      splitWordsAux (w ++ s :: rest) acc = (acc.reverse ++ w) :: splitWordsAux rest []
  | [], acc, rest, hacc, _ => by
    simp [splitWordsAux, hs, List.isEmpty_iff, hacc]
  | c :: w, acc, rest, hacc, hw => by
    have hc : isGoSpace c = false := hw c (by simp)
    have ih := splitWordsAux_word hs w (c :: acc) rest (by simp)
      (fun d hd => hw d (by simp [hd]))
    simp [splitWordsAux, hc, ih]

/-- A maximal nonspace word followed by a whitespace character is emitted as
one token, and scanning continues after the whitespace. -/
theorem splitWords_word {s : Char} (hs : isGoSpace s = true)
    {w : List Char} (hne : w ≠ []) (hw : allNonSpace w) (rest : List Char) :
    splitWords (w ++ s :: rest) = w :: splitWords rest := by
  cases w with
  | nil => exact absurd rfl hne
  | cons c w =>
    have hc : isGoSpace c = false := hw c (by simp)
    have h := splitWordsAux_word hs w [c] rest (by simp)
      (fun d hd => hw d (by simp [hd]))
    simp only [splitWords, List.cons_append, splitWordsAux, hc]
    simpa using h

theorem optStrOf_acc (options : List (List Char)) :
    ∀ acc, options.foldl (fun acc o => acc ++ ("OPTION=".data ++ o ++ [' '])) acc
      = acc ++ optStrOf options := by
  induction options with
  | nil => intro acc; simp [optStrOf]
  | cons o os ih =>
    intro acc
    simp only [optStrOf, List.foldl_cons] at ih ⊢
    rw [ih, ih ([] ++ ("OPTION=".data ++ o ++ [' ']))]
    simp

theorem optStrOf_cons (o : List Char) (os : List (List Char)) :
    optStrOf (o :: os) = ("OPTION=".data ++ o ++ [' ']) ++ optStrOf os := by
  simp only [optStrOf, List.foldl_cons]
  simpa using optStrOf_acc os ("OPTION=".data ++ o ++ [' '])

theorem splitWords_join (extras : List (List Char))
    (he : ∀ e ∈ extras, e ≠ [] ∧ allNonSpace e) :
    splitWords (joinSpace extras ++ ['\n']) = extras := by
  induction extras with
  | nil => decide
  | cons e es ih =>
    cases es with
    | nil =>
      have h := splitWords_word (show isGoSpace '\n' = true by decide)
        (he e (by simp)).1 (he e (by simp)).2 []
      simpa [joinSpace, splitWords, splitWordsAux] using h
    | cons e2 es2 =>
      have h := splitWords_word (show isGoSpace ' ' = true by decide)
        (he e (by simp)).1 (he e (by simp)).2 (joinSpace (e2 :: es2) ++ ['\n'])
      simp only [joinSpace, List.cons_append, List.append_assoc]
      rw [h, ih (fun x hx => he x (by simp [hx]))]

theorem splitWords_opts (options extras : List (List Char))
    (ho : ∀ o ∈ options, allNonSpace o)
    (he : ∀ e ∈ extras, e ≠ [] ∧ allNonSpace e) :
    splitWords (optStrOf options ++ (joinSpace extras ++ ['\n'])) =
      options.map (fun o => "OPTION=".data ++ o) ++ extras := by
  induction options with
  | nil =>
    simpa [optStrOf] using splitWords_join extras he
  | cons o os ih =>
    have hw : allNonSpace ("OPTION=".data ++ o) := by
      intro c hc
      rcases List.mem_append.mp hc with h | h
      · exact (by decide : ∀ x ∈ "OPTION=".data, isGoSpace x = false) c h
      · exact ho o (by simp) c h
    have hne : ("OPTION=".data ++ o) ≠ [] := by simp
    have h := splitWords_word (show isGoSpace ' ' = true by decide) hne hw
      (optStrOf os ++ (joinSpace extras ++ ['\n']))
    rw [optStrOf_cons]
    have hassoc : ("OPTION=".data ++ o ++ [' ']) ++ optStrOf os ++
        (joinSpace extras ++ ['\n']) =
        ("OPTION=".data ++ o) ++ ' ' :: (optStrOf os ++ (joinSpace extras ++ ['\n'])) := by
      simp [List.append_assoc]
    rw [hassoc, h, ih (fun x hx => ho x (by simp [hx]))]
    simp

/-! ## Helper lemmas about the lookup scan -/

theorem not_value_of_message {t : List Char}
    (hm : "MESSAGE=".data.isPrefixOf t = true) :
    "VALUE=".data.isPrefixOf t = false := by
  cases hv : "VALUE=".data.isPrefixOf t with
  | false => rfl
  | true =>
    exfalso
    rcases List.isPrefixOf_iff_prefix.mp hm with ⟨u, hu⟩
    have h2 : "VALUE=".data <+: t := List.isPrefixOf_iff_prefix.mp hv
    rw [← hu] at h2
    have h3 : 'V' :: "ALUE=".data <+: 'M' :: ("ESSAGE=".data ++ u) := h2
    rw [List.cons_prefix_cons] at h3
    exact absurd h3.1 (by decide)

theorem lookupScan_benign_step {name t : List Char} (hb : lookupBenign name t)
    (errStr : List Char) (ts : List (List Char)) :
    ∃ e2, lookupScan name errStr (t :: ts) = lookupScan name e2 ts := by
  by_cases h1 : t = "RESULT=OK".data
  · exact ⟨errStr, by simp [lookupScan, h1]⟩
  by_cases h2 : t = "RESULT=INVALID_KEY".data
  · exact ⟨errStr ++ "Invalid key.".data, by simp [lookupScan, h1, h2]⟩
  by_cases h3 : t = "RESULT=KEY_NOT_FOUND".data
  · exact ⟨errStr ++ "Unable to resolve ".data ++ name,
      by simp [lookupScan, h1, h2, h3]⟩
  by_cases h4 : t = "NAME=".data ++ name
  · exact ⟨errStr, by simp [lookupScan, h1, h2, h3, h4]⟩
  have hmsg : "MESSAGE=".data.isPrefixOf t = true := by
    rcases hb with h | h | h | h | h
    · exact absurd h h1
    · exact absurd h h2
    · exact absurd h h3
    · exact absurd h h4
    · exact h
  have hval : "VALUE=".data.isPrefixOf t = false := not_value_of_message hmsg
  have h4b : t ≠ 'N' :: 'A' :: 'M' :: 'E' :: '=' :: name := h4
  exact ⟨errStr ++ [' '] ++ t.drop 8,
    by simp [lookupScan, h1, h2, h3, h4b, hval, hmsg]⟩

theorem lookupScan_value (name X : List Char) (post : List (List Char)) :
    ∀ (pre : List (List Char)) (errStr : List Char),
      (∀ t ∈ pre, lookupBenign name t) →
      lookupScan name errStr (pre ++ ("VALUE=".data ++ X) :: post) = .ok X := by
  intro pre
  induction pre with
  | nil =>
    intro errStr _
    have h1 : ("VALUE=".data ++ X) ≠ "RESULT=OK".data := by
      show 'V' :: ("ALUE=".data ++ X) ≠ 'R' :: "ESULT=OK".data
      intro h; injection h with hh _; exact absurd hh (by decide)
    have h2 : ("VALUE=".data ++ X) ≠ "RESULT=INVALID_KEY".data := by
      show 'V' :: ("ALUE=".data ++ X) ≠ 'R' :: "ESULT=INVALID_KEY".data
      intro h; injection h with hh _; exact absurd hh (by decide)
    have h3 : ("VALUE=".data ++ X) ≠ "RESULT=KEY_NOT_FOUND".data := by
      show 'V' :: ("ALUE=".data ++ X) ≠ 'R' :: "ESULT=KEY_NOT_FOUND".data
      intro h; injection h with hh _; exact absurd hh (by decide)
    have h4 : ("VALUE=".data ++ X) ≠ "NAME=".data ++ name := by
      show 'V' :: ("ALUE=".data ++ X) ≠ 'N' :: ("AME=".data ++ name)
      intro h; injection h with hh _; exact absurd hh (by decide)
    have hval : "VALUE=".data.isPrefixOf ("VALUE=".data ++ X) = true := by
      simp [List.isPrefixOf_iff_prefix]
    have hdrop : ("VALUE=".data ++ X).drop 6 = X :=
      List.drop_left' (by decide)
    simp [lookupScan, h1, h2, h3, h4, hval, hdrop]
  | cons t pre ih =>
    intro errStr hpre
    rcases lookupScan_benign_step (hpre t (by simp)) errStr
      (pre ++ ("VALUE=".data ++ X) :: post) with ⟨e2, he2⟩
    rw [List.cons_append, he2]
    exact ih e2 (fun x hx => hpre x (by simp [hx]))

/-! ## Helper lemmas about the write loop -/

theorem writeLoopAux_trace_length (out : Nat → WriteOutcome) (L : Nat) :
    ∀ fuel m i, i ≤ 15 →
      ((writeLoopAux out L fuel m i).2).length ≤ 15 - i := by
  intro fuel
  induction fuel with
  | zero => intro m i _; simp [writeLoopAux]
  | succ fuel ih =>
    intro m i h
    by_cases hm : m = L
    · simp [writeLoopAux, hm]
    by_cases hi : i = 15
    · simp [writeLoopAux, hm, hi]
    cases hout : out i with
    | err e => simp [writeLoopAux, hm, hi, hout]; omega
    | ok n =>
      have hrec := ih (m + n) (i + 1) (by omega)
      simp only [writeLoopAux, hm, hi, hout, if_neg, if_false]
      simp [hm, hi]
      omega

theorem writeLoopAux_trace_get (out : Nat → WriteOutcome) (L : Nat) :
    ∀ fuel m i k (hk : k < ((writeLoopAux out L fuel m i).2).length),
      ((writeLoopAux out L fuel m i).2).get ⟨k, hk⟩ = m + sumBytes out i k := by
  intro fuel
  induction fuel with
  | zero => intro m i k hk; simp [writeLoopAux] at hk
  | succ fuel ih =>
    intro m i k hk
    by_cases hm : m = L
    · simp [writeLoopAux, hm] at hk
    by_cases hi : i = 15
    · simp [writeLoopAux, hm, hi] at hk
    cases hout : out i with
    | err e =>
      have heq : ((writeLoopAux out L (fuel + 1) m i).2) = [m] := by
        simp [writeLoopAux, hm, hi, hout]
      have hk0 : k = 0 := by
        rw [heq] at hk; simpa using hk
      subst hk0
      simp [heq, sumBytes]
    | ok n =>
      have heq : ((writeLoopAux out L (fuel + 1) m i).2) =
          m :: (writeLoopAux out L fuel (m + n) (i + 1)).2 := by
        simp [writeLoopAux, hm, hi, hout]
      cases k with
      | zero => simp [heq, sumBytes]
      | succ k =>
        have hk2 : k < ((writeLoopAux out L fuel (m + n) (i + 1)).2).length := by
          rw [heq] at hk; simpa using hk
        have hrec := ih (m + n) (i + 1) k hk2
        rw [List.get_of_eq heq]
        simp only [List.get_cons_succ]
        rw [hrec]
        simp [sumBytes, hout, okBytes]
        omega

/-! ## Further helper lemmas -/

theorem newSAMModel_not_closed (env : NewSAMEnv) :
    (newSAMModel env).2.closed = false := by
  rcases hd : env.dial with e | u
  · simp [newSAMModel, hd]
  · rcases hw : env.helloWrite with e | u2
    · simp [newSAMModel, hd, hw]
    · rcases hr : env.helloRead with e | reply
      · simp [newSAMModel, hd, hw, hr]
      · rcases hc : classifyHello reply with _ | _ | raw <;>
          simp [newSAMModel, hd, hw, hr, hc]

theorem classifySession_close (keysStr text : List Char) :
    (classifySession keysStr text).2 = false ↔
      session_OK.isPrefixOf text = true := by
  unfold classifySession
  by_cases hp : session_OK.isPrefixOf text
  · by_cases hk : keysStr = (text.drop session_OK.length).dropLast <;> simp [hp, hk]
  · have hcoe : ¬ (session_OK <+: text) := fun hcon =>
      hp (List.isPrefixOf_iff_prefix.mpr hcon)
    by_cases h1 : text = session_DUPLICATE_ID
    · subst h1; simp [hcoe]
    by_cases h2 : text = session_DUPLICATE_DEST
    · subst h2
      simp [hcoe, show session_DUPLICATE_DEST ≠ session_DUPLICATE_ID by decide]
    by_cases h3 : text = session_INVALID_KEY
    · subst h3
      simp [hcoe, show session_INVALID_KEY ≠ session_DUPLICATE_ID by decide,
        show session_INVALID_KEY ≠ session_DUPLICATE_DEST by decide]
    by_cases h4 : session_I2P_ERROR <+: text
    · simp [hcoe, h1, h2, h3, h4]
    · simp [hcoe, h1, h2, h3, h4]

theorem classifySession_conn_not_closed (keysStr text : List Char)
    (h : (classifySession keysStr text).1 = .conn) :
    (classifySession keysStr text).2 = false := by
  revert h
  unfold classifySession
  by_cases hp : session_OK.isPrefixOf text
  · by_cases hk : keysStr = (text.drop session_OK.length).dropLast <;> simp [hp, hk]
  · have hcoe : ¬ (session_OK <+: text) := fun hcon =>
      hp (List.isPrefixOf_iff_prefix.mpr hcon)
    by_cases h1 : text = session_DUPLICATE_ID
    · subst h1; simp [hcoe]
    by_cases h2 : text = session_DUPLICATE_DEST
    · subst h2
      simp [hcoe, show session_DUPLICATE_DEST ≠ session_DUPLICATE_ID by decide]
    by_cases h3 : text = session_INVALID_KEY
    · subst h3
      simp [hcoe, show session_INVALID_KEY ≠ session_DUPLICATE_ID by decide,
        show session_INVALID_KEY ≠ session_DUPLICATE_DEST by decide]
    by_cases h4 : session_I2P_ERROR <+: text
    · simp [hcoe, h1, h2, h3, h4]
    · simp [hcoe, h1, h2, h3, h4]

/-! ## The claims -/

/-- C4: handshake classification is total and three-way: the reply exactly
equal to the success string yields a successful handshake, the reply exactly
equal to the no-compatible-version string yields the unsupported-version
failure, any other content yields a protocol error carrying the raw reply
text, and every reply falls into one of the three outcomes. -/
theorem claim_C4_hello_classification (reply : List Char) :
    (reply = hello_OK → classifyHello reply = .success) ∧
    (reply = hello_NOVERSION → classifyHello reply = .unsupportedVersion) ∧
    (reply ≠ hello_OK → reply ≠ hello_NOVERSION →
      classifyHello reply = .protocolError reply) ∧
    (classifyHello reply = .success ∨
      classifyHello reply = .unsupportedVersion ∨
      classifyHello reply = .protocolError reply) := by
  refine ⟨?_, ?_, ?_, ?_⟩
  · intro h; simp [classifyHello, h]
  · intro h
    subst h
    have hne : hello_NOVERSION ≠ hello_OK := by decide
    simp [classifyHello, hne]
  · intro h1 h2; simp [classifyHello, h1, h2]
  · by_cases h1 : reply = hello_OK
    · left; simp [classifyHello, h1]
    by_cases h2 : reply = hello_NOVERSION
    · subst h2
      have hne : hello_NOVERSION ≠ hello_OK := by decide
      right; left; simp [classifyHello, hne]
    · right; right; simp [classifyHello, h1, h2]

/-- Witness for C4 at the three concrete reply shapes. -/
theorem claim_C4_hello_classification_witness :
    classifyHello hello_OK = .success ∧
    classifyHello hello_NOVERSION = .unsupportedVersion ∧
    classifyHello "HELLO REPLY RESULT=NOVERSION MESSAGE=no\n".data =
      .protocolError "HELLO REPLY RESULT=NOVERSION MESSAGE=no\n".data :=
  ⟨(claim_C4_hello_classification hello_OK).1 rfl,
   (claim_C4_hello_classification hello_NOVERSION).2.1 rfl,
   (claim_C4_hello_classification _).2.2.1 (by decide) (by decide)⟩

/-- C2 (refuting evaluation): `NewKeys` accepts the reply
`DEST REPLY PUB=abc`, whose token stream sets the public address but never a
private key, and returns the pair (public `abc`, private empty string) with
no error — a silent partial result, which the claim says must not happen. -/
theorem claim_C2_newKeys_partial_result :
    newKeysModel "DEST REPLY PUB=abc".data = .ok ("abc".data, []) := rfl

/-- C9: a lookup of `nonexistent.i2p` whose reply is
`NAMING REPLY RESULT=KEY_NOT_FOUND NAME=nonexistent.i2p` fails, and the error
message contains (here: equals) `Unable to resolve nonexistent.i2p`. -/
theorem claim_C9_lookup_key_not_found :
    lookupModel "nonexistent.i2p".data
      "NAMING REPLY RESULT=KEY_NOT_FOUND NAME=nonexistent.i2p".data =
      .error "Unable to resolve nonexistent.i2p".data ∧
    "Unable to resolve nonexistent.i2p".data <:+:
      "Unable to resolve nonexistent.i2p".data :=
  ⟨rfl, List.infix_refl _⟩

/-- C10: every reply of at most 13 bytes is rejected with the parse error —
including the reply consisting of exactly the 13-byte header — and a
successful lookup requires the reply to be strictly longer than 13 bytes. -/
theorem claim_C10_lookup_short_reply (name reply : List Char) :
    (utf8Len reply ≤ 13 → lookupModel name reply = .error "Failed to parse.".data) ∧
    (∀ X, lookupModel name reply = .ok X → 13 < utf8Len reply) := by
  constructor
  · intro h; simp [lookupModel, h]
  · intro X h
    by_contra hlen
    push_neg at hlen
    simp [lookupModel, hlen] at h

/-- Witness for C10: the exact header `NAMING REPLY ` is 13 bytes, begins
with the required header, and is rejected. -/
theorem claim_C10_lookup_short_reply_witness :
    namingHeader.isPrefixOf namingHeader = true ∧
    lookupModel [] namingHeader = .error "Failed to parse.".data :=
  ⟨by decide, (claim_C10_lookup_short_reply [] namingHeader).1 (by decide)⟩

/-- C8: a reply whose token stream after the header consists of recognized
non-returning tokens followed by a `VALUE=X` token returns the address `X`
(marker stripped) immediately, regardless of any error text accumulated from
the earlier tokens and regardless of any tokens that follow. -/
theorem claim_C8_lookup_value_short_circuit (name reply X : List Char)
    (pre post : List (List Char))
    (hlen : 13 < utf8Len reply)
    (hhd : namingHeader.isPrefixOf reply = true)
    (htok : splitWords (reply.drop 13) = pre ++ ("VALUE=".data ++ X) :: post)
    (hpre : ∀ t ∈ pre, lookupBenign name t) :
    lookupModel name reply = .ok X := by
  have h13 : ¬ (utf8Len reply ≤ 13) := by omega
  unfold lookupModel
  rw [if_neg h13, if_neg (by simp [hhd]), htok]
  exact lookupScan_value name X post pre [] hpre

/-- Witness for C8: a reply that first accumulates the unresolvable-name
error text, then carries a value, then a trailing token, still resolves. -/
theorem claim_C8_lookup_value_short_circuit_witness :
    lookupModel "x".data
      "NAMING REPLY RESULT=KEY_NOT_FOUND VALUE=abc junk".data = .ok "abc".data :=
  claim_C8_lookup_value_short_circuit "x".data
    "NAMING REPLY RESULT=KEY_NOT_FOUND VALUE=abc junk".data "abc".data
    ["RESULT=KEY_NOT_FOUND".data] ["junk".data]
    (by decide) (by decide) (by decide)
    (fun t ht => by
      simp only [List.mem_singleton] at ht
      subst ht
      exact Or.inr (Or.inr (Or.inl rfl)))

/-- C3: when the session-create reply is the success marker followed by a
destination and a trailing newline, the destination (newline trimmed) is
compared with the requested keys serialization; a mismatch fails with the
integrity error and equality returns the live connection, in both cases
without closing the connection. -/
theorem claim_C3_session_ok_reply (style id keysStr d : List Char)
    (options extras : List (List Char)) (env : SessionEnv)
    (hsam : (newSAMModel env.newSAMEnv).1 = .ok ())
    (hw : (writeLoop env.writeOutcomes
      (sessionCmd style id keysStr options extras).length).1 = .done)
    (hr : env.readResult = .ok (session_OK ++ d ++ ['\n'])) :
    newGenericSessionModel style id keysStr options extras env =
      if keysStr = d then (.conn, ⟨true, false⟩)
      else (.err integrityMsg, ⟨true, false⟩) := by
  have hclass : classifySession keysStr (session_OK ++ d ++ ['\n']) =
      if keysStr = d then (.conn, false) else (.err integrityMsg, false) := by
    have hpre2 : session_OK.isPrefixOf (session_OK ++ d ++ ['\n']) = true := by
      rw [List.append_assoc]
      simp [List.isPrefixOf_iff_prefix]
    have hdrop : (session_OK ++ d ++ ['\n']).drop session_OK.length =
        d ++ ['\n'] := by
      rw [List.append_assoc]
      exact List.drop_left _ _
    unfold classifySession
    rw [if_pos hpre2, hdrop, List.dropLast_concat]
  rcases hpair : newSAMModel env.newSAMEnv with ⟨r, cs⟩
  rw [hpair] at hsam
  simp only at hsam
  subst hsam
  unfold newGenericSessionModel
  rw [hpair]
  simp only [hw, hr, hclass]
  by_cases hk : keysStr = d <;> simp [hk]

/-- Witness for C3: both the matching and the mismatching destination, on a
throughgoing environment. -/
theorem claim_C3_session_ok_reply_witness :
    newGenericSessionModel "S".data "i".data "K".data [] []
      ⟨⟨.ok (), .ok (), .ok hello_OK⟩, fun _ => WriteOutcome.ok 43,
        .ok (session_OK ++ "K".data ++ ['\n'])⟩ = (.conn, ⟨true, false⟩) ∧
    newGenericSessionModel "S".data "i".data "WANTED".data [] []
      ⟨⟨.ok (), .ok (), .ok hello_OK⟩, fun _ => WriteOutcome.ok 48,
        .ok (session_OK ++ "OTHER".data ++ ['\n'])⟩ =
      (.err integrityMsg, ⟨true, false⟩) :=
  ⟨by
    have h := claim_C3_session_ok_reply "S".data "i".data "K".data "K".data [] []
      ⟨⟨.ok (), .ok (), .ok hello_OK⟩, fun _ => WriteOutcome.ok 43,
        .ok (session_OK ++ "K".data ++ ['\n'])⟩ rfl (by decide) rfl
    simpa using h,
   by
    have h := claim_C3_session_ok_reply "S".data "i".data "WANTED".data
      "OTHER".data [] []
      ⟨⟨.ok (), .ok (), .ok hello_OK⟩, fun _ => WriteOutcome.ok 48,
        .ok (session_OK ++ "OTHER".data ++ ['\n'])⟩ rfl (by decide) rfl
    simpa using h⟩

/-- C5 (refuting evaluation): when opening the new control connection fails,
the error handed to the caller is the fixed message
`Unable to create new streaming tunnel.`, not the underlying dial error —
contradicting the claim that the underlying error is returned. -/
theorem claim_C5_counterexample :
    newGenericSessionModel "STREAM".data "i".data "K".data [] []
      ⟨⟨.error "connection refused".data, .ok (), .ok []⟩,
        fun _ => WriteOutcome.ok 0, .ok []⟩ =
      (.err unableMsg, ⟨false, false⟩) ∧
    unableMsg ≠ "connection refused".data :=
  ⟨rfl, by decide⟩

/-- C5 (amended): when the first step — opening a new control connection to
the same endpoint and running the handshake on it — fails, the operation
aborts, but with the fixed error `Unable to create new streaming tunnel.`
that replaces the underlying transport/handshake error. -/
theorem claim_C5_newSAM_error_replaced (style id keysStr : List Char)
    (options extras : List (List Char)) (env : SessionEnv) (e : List Char)
    (h : (newSAMModel env.newSAMEnv).1 = .error e) :
    newGenericSessionModel style id keysStr options extras env =
      (.err unableMsg, (newSAMModel env.newSAMEnv).2) := by
  rcases hpair : newSAMModel env.newSAMEnv with ⟨r, cs⟩
  rw [hpair] at h
  simp only at h
  subst h
  unfold newGenericSessionModel
  rw [hpair]

/-- Witness for C5 (amended) at a concrete failing dial. -/
theorem claim_C5_newSAM_error_replaced_witness :
    newGenericSessionModel "STREAM".data "j".data "K".data [] []
      ⟨⟨.error "boom".data, .ok (), .ok []⟩, fun _ => WriteOutcome.ok 0,
        .ok []⟩ = (.err unableMsg, ⟨false, false⟩) :=
  claim_C5_newSAM_error_replaced "STREAM".data "j".data "K".data [] []
    ⟨⟨.error "boom".data, .ok (), .ok []⟩, fun _ => WriteOutcome.ok 0, .ok []⟩
    "boom".data rfl

/-- C6: the command write loop performs at most 15 write attempts; the k-th
attempt is issued at the offset equal to the total bytes reported written by
the earlier attempts (it resumes from the first unwritten byte); and when the
loop ends by exhausting the attempt bound without having written the whole
command, the operation fails with `writing to SAM failed` and the connection
is closed.  The loop is a total function, so it always terminates. -/
theorem claim_C6_write_loop (style id keysStr : List Char)
    (options extras : List (List Char)) (env : SessionEnv) :
    ((writeLoop env.writeOutcomes
      (sessionCmd style id keysStr options extras).length).2).length ≤ 15 ∧
    (∀ k (hk : k < ((writeLoop env.writeOutcomes
        (sessionCmd style id keysStr options extras).length).2).length),
      ((writeLoop env.writeOutcomes
        (sessionCmd style id keysStr options extras).length).2).get ⟨k, hk⟩ =
        sumBytes env.writeOutcomes 0 k) ∧
    ((newSAMModel env.newSAMEnv).1 = .ok () →
      (writeLoop env.writeOutcomes
        (sessionCmd style id keysStr options extras).length).1 = .bound →
      newGenericSessionModel style id keysStr options extras env =
        (.err "writing to SAM failed".data, ⟨true, true⟩)) := by
  refine ⟨?_, ?_, ?_⟩
  · simpa using writeLoopAux_trace_length env.writeOutcomes
      (sessionCmd style id keysStr options extras).length 16 0 0 (by omega)
  · intro k hk
    simpa using writeLoopAux_trace_get env.writeOutcomes
      (sessionCmd style id keysStr options extras).length 16 0 0 k hk
  · intro hsam hb
    rcases hpair : newSAMModel env.newSAMEnv with ⟨r, cs⟩
    rw [hpair] at hsam
    simp only at hsam
    subst hsam
    unfold newGenericSessionModel
    rw [hpair]
    simp only [hb]

/-- Witness for C6: with a writer that reports zero bytes each time, the
loop stops after exactly 15 attempts, the first attempt is at offset 0, and
the session call fails with the transport error and a closed connection. -/
theorem claim_C6_write_loop_witness :
    ((writeLoop (fun _ => WriteOutcome.ok 0)
      (sessionCmd "S".data "i".data "K".data [] []).length).2).get
        ⟨0, by decide⟩ = sumBytes (fun _ => WriteOutcome.ok 0) 0 0 ∧
    newGenericSessionModel "S".data "i".data "K".data [] []
      ⟨⟨.ok (), .ok (), .ok hello_OK⟩, fun _ => WriteOutcome.ok 0, .ok []⟩ =
      (.err "writing to SAM failed".data, ⟨true, true⟩) :=
  ⟨(claim_C6_write_loop "S".data "i".data "K".data [] []
      ⟨⟨.ok (), .ok (), .ok hello_OK⟩, fun _ => WriteOutcome.ok 0,
        .ok []⟩).2.1 0 (by decide),
   (claim_C6_write_loop "S".data "i".data "K".data [] []
      ⟨⟨.ok (), .ok (), .ok hello_OK⟩, fun _ => WriteOutcome.ok 0,
        .ok []⟩).2.2 rfl (by decide)⟩

/-- C1 (refuting evaluation): on the destination-mismatch integrity-error
path the operation returns an error while the newly opened connection is
left open and un-closed — so it is not the case that every failure path
closes the connection before returning. -/
theorem claim_C1_counterexample :
    newGenericSessionModel "S".data "i".data "K".data [] []
      ⟨⟨.ok (), .ok (), .ok hello_OK⟩, fun _ => WriteOutcome.ok 43,
        .ok "SESSION STATUS RESULT=OK DESTINATION=X\n".data⟩ =
      (.err integrityMsg, ⟨true, false⟩) := rfl

/-- C1 (amended): on success the connection is returned un-closed; when the
handshake on the new connection fails the error is returned with the
connection (if opened) left un-closed; and after a successful handshake the
connection ends up un-closed exactly when the write loop completed and the
read returned a reply bearing the success marker (the success and the
destination-mismatch integrity-error paths) — every other failure path
closes the connection before returning. -/
theorem claim_C1_close_paths (style id keysStr : List Char)
    (options extras : List (List Char)) (env : SessionEnv) :
    ((newGenericSessionModel style id keysStr options extras env).1 = .conn →
      (newGenericSessionModel style id keysStr options extras env).2.closed
        = false) ∧
    (∀ e, (newSAMModel env.newSAMEnv).1 = .error e →
      (newGenericSessionModel style id keysStr options extras env).1 ≠ .conn ∧
      (newGenericSessionModel style id keysStr options extras env).2.closed
        = false) ∧
    ((newSAMModel env.newSAMEnv).1 = .ok () →
      ((newGenericSessionModel style id keysStr options extras env).2.closed
          = false ↔
        ((writeLoop env.writeOutcomes
          (sessionCmd style id keysStr options extras).length).1 = .done ∧
          ∃ text, env.readResult = .ok text ∧
            session_OK.isPrefixOf text = true))) := by
  have hnc := newSAMModel_not_closed env.newSAMEnv
  rcases hpair : newSAMModel env.newSAMEnv with ⟨r, cs⟩
  rw [hpair] at hnc
  simp only at hnc
  rcases r with e | u
  · refine ⟨?_, ?_, ?_⟩
    · intro h
      rw [newGenericSessionModel.eq_def, hpair] at h
      simp at h
    · intro e2 _
      constructor <;> simp [newGenericSessionModel.eq_def, hpair, hnc]
    · intro h
      simp at h
  · refine ⟨?_, ?_, ?_⟩
    · cases hwl : (writeLoop env.writeOutcomes
          (sessionCmd style id keysStr options extras).length).1 with
      | bound =>
        intro h
        rw [newGenericSessionModel.eq_def, hpair] at h
        simp [hwl] at h
      | fail e =>
        intro h
        rw [newGenericSessionModel.eq_def, hpair] at h
        simp [hwl] at h
      | done =>
        rcases hr : env.readResult with e | text
        · intro h
          rw [newGenericSessionModel.eq_def, hpair] at h
          simp [hwl, hr] at h
        · intro h
          rw [newGenericSessionModel.eq_def, hpair] at h ⊢
          simp only [hwl, hr] at h ⊢
          exact classifySession_conn_not_closed keysStr text h
    · intro e2 h2
      simp at h2
    · intro _
      rw [newGenericSessionModel.eq_def, hpair]
      cases hwl : (writeLoop env.writeOutcomes
          (sessionCmd style id keysStr options extras).length).1 with
      | bound => simp [hwl]
      | fail e => simp [hwl]
      | done =>
        rcases hr : env.readResult with e | text
        · simp [hwl, hr]
        · simp [hwl, hr, classifySession_close keysStr text]

/-- Witness for C1 (amended) at a concrete failing dial: the error is
returned with the (never-opened) connection un-closed. -/
theorem claim_C1_close_paths_witness :
    (newGenericSessionModel "S".data "i".data "K".data [] []
      ⟨⟨.error "boom".data, .ok (), .ok []⟩, fun _ => WriteOutcome.ok 0,
        .ok []⟩).1 ≠ .conn ∧
    (newGenericSessionModel "S".data "i".data "K".data [] []
      ⟨⟨.error "boom".data, .ok (), .ok []⟩, fun _ => WriteOutcome.ok 0,
        .ok []⟩).2.closed = false :=
  (claim_C1_close_paths "S".data "i".data "K".data [] []
    ⟨⟨.error "boom".data, .ok (), .ok []⟩, fun _ => WriteOutcome.ok 0,
      .ok []⟩).2.1 "boom".data rfl

theorem allNonSpace_append {a b : List Char}
    (ha : allNonSpace a) (hb : allNonSpace b) : allNonSpace (a ++ b) := by
  intro c hc
  rcases List.mem_append.mp hc with h | h
  · exact ha c h
  · exact hb c h

theorem splitWords_chain (rest : List Char) :
    ∀ ws : List (List Char), (∀ w ∈ ws, w ≠ [] ∧ allNonSpace w) →
      splitWords (ws.foldr (fun w acc => w ++ ' ' :: acc) rest) =
        ws ++ splitWords rest := by
  intro ws
  induction ws with
  | nil => intro _; simp
  | cons w ws ih =>
    intro h
    simp only [List.foldr_cons]
    rw [splitWords_word (show isGoSpace ' ' = true by decide)
      (h w (by simp)).1 (h w (by simp)).2]
    rw [ih (fun x hx => h x (by simp [hx]))]
    simp

/-- C7: for whitespace-free inputs, tokenizing the serialized session-create
command yields `SESSION`, `CREATE`, the `STYLE=`, `ID=` and `DESTINATION=`
fields, then each option exactly once as an `OPTION=` token in input order,
then the extras verbatim in input order — all before the terminating
newline, which produces no token. -/
theorem claim_C7_command_tokens (style id keysStr : List Char)
    (options extras : List (List Char))
    (hstyle : allNonSpace style) (hid : allNonSpace id)
    (hkeys : allNonSpace keysStr)
    (ho : ∀ o ∈ options, allNonSpace o)
    (he : ∀ e ∈ extras, e ≠ [] ∧ allNonSpace e) :
    splitWords (sessionCmd style id keysStr options extras) =
      ["SESSION".data, "CREATE".data, "STYLE=".data ++ style,
        "ID=".data ++ id, "DESTINATION=".data ++ keysStr] ++
        options.map (fun o => "OPTION=".data ++ o) ++ extras := by
  have e1 : "SESSION CREATE STYLE=".data =
      "SESSION".data ++ ' ' :: ("CREATE".data ++ ' ' :: "STYLE=".data) := rfl
  have e2 : " ID=".data = ' ' :: "ID=".data := rfl
  have e3 : " DESTINATION=".data = ' ' :: "DESTINATION=".data := rfl
  have hcmd : sessionCmd style id keysStr options extras =
      (["SESSION".data, "CREATE".data, "STYLE=".data ++ style,
        "ID=".data ++ id, "DESTINATION=".data ++ keysStr]).foldr
        (fun w acc => w ++ ' ' :: acc)
        (optStrOf options ++ (joinSpace extras ++ ['\n'])) := by
    unfold sessionCmd
    rw [e1, e2, e3]
    simp [List.append_assoc]
  have hws : ∀ w ∈ ["SESSION".data, "CREATE".data, "STYLE=".data ++ style,
      "ID=".data ++ id, "DESTINATION=".data ++ keysStr],
      w ≠ [] ∧ allNonSpace w := by
    intro w hw
    simp only [List.mem_cons, List.not_mem_nil, or_false] at hw
    rcases hw with rfl | rfl | rfl | rfl | rfl
    · exact ⟨by decide, by decide⟩
    · exact ⟨by decide, by decide⟩
    · refine ⟨?_, allNonSpace_append (by decide) hstyle⟩
      intro hnil
      exact absurd (List.append_eq_nil.mp hnil).1 (by decide)
    · refine ⟨?_, allNonSpace_append (by decide) hid⟩
      intro hnil
      exact absurd (List.append_eq_nil.mp hnil).1 (by decide)
    · refine ⟨?_, allNonSpace_append (by decide) hkeys⟩
      intro hnil
      exact absurd (List.append_eq_nil.mp hnil).1 (by decide)
  rw [hcmd, splitWords_chain _ _ hws, splitWords_opts options extras ho he]
  simp

/-- Witness for C7 at a concrete command with two options and one extra. -/
theorem claim_C7_command_tokens_witness :
    splitWords (sessionCmd "STREAM".data "id1".data "KEYS".data
      ["inbound.length=3".data, "outbound.length=3".data] ["SILENT=false".data]) =
      ["SESSION".data, "CREATE".data, "STYLE=STREAM".data, "ID=id1".data,
        "DESTINATION=KEYS".data, "OPTION=inbound.length=3".data,
        "OPTION=outbound.length=3".data, "SILENT=false".data] := by
  have h := claim_C7_command_tokens "STREAM".data "id1".data "KEYS".data
    ["inbound.length=3".data, "outbound.length=3".data] ["SILENT=false".data]
    (by decide) (by decide) (by decide)
    (by intro o hop; fin_cases hop <;> decide)
    (by intro x hx; fin_cases hx; exact ⟨by decide, by decide⟩)
  simpa using h

end Sam3
